import Mathlib

/-!
# Verification of the COMP3234 guessing-game server

Shallow embedding of `src/PA1/GameServer.py`: the player/room data model,
the room admission and resolution logic, the lobby `/enter` dispatch, and
the login (`authenticate`) loop.  Concurrency primitives (`threading.Event`,
locks) are modelled as boolean flags on the room state; transport I/O is
modelled by explicit outcome/event parameters.
-/

namespace GameServer

/-- `Player.State` (GameServer.py lines 22-26). -/
inductive PState where
  | LOBBY
  | WAITING
  | INGAME
  | DISCONNECTED
deriving DecidableEq, Repr

/-- A player session: identity (the connection handle, modelled as a numeric id),
protocol `state`, and the back-reference `room` to the joined room
(modelled as an index into the room pool), cf. `Player.__init__` lines 31-38. -/
structure Player where
  pid : Nat
  state : PState
  room : Option Nat
deriving DecidableEq, Repr

/-- A game room: member list (player ids, in join order) and the four
`threading.Event` flags of `GameRoom.__init__` (lines 87-95), modelled as
booleans (`set` = true), plus the `guesses` dict of `GuessGameRoom.start`
(a mapping member id to optional boolean), modelled as an association list.
`clean` starts set; `guesses` does not exist before the first round, modelled
as the empty association list. -/
structure Room where
  players : List Nat
  begin : Bool
  finish : Bool
  abort : Bool
  clean : Bool
  guesses : List (Nat × Option Bool)
deriving DecidableEq, Repr

/-- The freshly constructed room of `GameRoom.__init__` (lines 88-95). -/
def Room.init : Room :=
  { players := [], begin := false, finish := false, abort := false,
    clean := true, guesses := [] }

/-- `ROOM_COUNT = 8` (line 268). -/
def ROOM_COUNT : Nat := 8

/-- `MAX_PLAYERS = 2` of `GuessGameRoom.__init__` (line 138). -/
def MAX_PLAYERS : Nat := 2

/-- Python list indexing semantics: a negative index counts from the end of
the list; an index out of range raises `IndexError`, modelled as `none`. -/
def pyGet (l : List α) (i : Int) : Option α :=
  let j : Int := if i < 0 then i + l.length else i
  if 0 ≤ j then l.get? j.toNat else none

/-- `GameRoom.remove_player` (lines 107-114): remove the first occurrence of
the player from `players` if present, else only log a warning. -/
def Room.remove_player (r : Room) (pid : Nat) : Room :=
  if pid ∈ r.players then { r with players := r.players.erase pid } else r

/-- Update the `i`-th element of a list in place (models mutation of the
shared room object referenced by `Player.room`). -/
def modifyIdx (l : List Room) (i : Nat) (f : Room → Room) : List Room :=
  match l, i with
  | [], _ => []
  | r :: rs, 0 => f r :: rs
  | r :: rs, n + 1 => r :: modifyIdx rs n f

/-- `Player.leave` (lines 45-50): set `state = LOBBY`; if a room reference is
held, ask that room to drop this member; clear the room reference.  The room
pool is threaded explicitly so the mutation of the referenced room is visible. -/
def Player.leave (p : Player) (rooms : List Room) : Player × List Room :=
  let p := { p with state := PState.LOBBY }
  match p.room with
  | some rid => ({ p with room := none }, modifyIdx rooms rid (fun r => r.remove_player p.pid))
  | none => ({ p with room := none }, rooms)

/-- `Player.exit` (lines 52-53). -/
def Player.exitPlayer (p : Player) : Player :=
  { p with state := PState.DISCONNECTED }

/-- Whether a string survives `str.encode("ascii")`. -/
def asciiEncodable (s : String) : Bool :=
  s.toList.all (fun c => c.toNat ≤ 127)

/-- Result of the underlying `socket.send` call, an input to the model. -/
inductive TransportResult where
  | delivered
  | sockErr
deriving DecidableEq, Repr

/-- `Player.send` (lines 55-66): encode the message as ASCII and push it to the
socket.  A `UnicodeEncodeError` (message not ASCII) or a `socket.error`
(transport failure, supplied as the `TransportResult` input) forces
`state = DISCONNECTED` and raises `Player.ExitedException`, modelled as the
`Except.error` case carrying the mutated player.  On success the player is
returned unchanged. -/
def Player.send (p : Player) (msg : String) (t : TransportResult) : Except Player Player :=
  if asciiEncodable msg then
    match t with
    | TransportResult.delivered => Except.ok p
    | TransportResult.sockErr => Except.error { p with state := PState.DISCONNECTED }
  else
    Except.error { p with state := PState.DISCONNECTED }

/-- What `GuessGameRoom.add_player` decides for the requester. -/
inductive JoinOutcome where
  | roomFull
  | waitForPeer
  | startsRound
deriving DecidableEq, Repr

/-- `Player.join` (lines 40-43) fused with `GuessGameRoom.add_player`
(lines 140-154).  `join` first sets the session's room reference and
`state = WAITING`, then delegates admission to the room:
if the room already holds `MAX_PLAYERS` members the requester is sent
`3013` and `add_player` returns `True` (so `handle_enter` returns at once);
otherwise the requester is appended (unless already present, the base-class
check of lines 100-105), the admission waits for the `clean` event
(concurrency abstracted: we model the situation after that wait succeeds,
the flags themselves are not modified by admission), and either replies
`3011 Wait` (room still below capacity, return `False`) or becomes the
session that triggers `start`.  Returns the mutated player, the mutated
room, the replies sent to the requester, and the outcome. -/
def Player.join (p : Player) (rid : Nat) (r : Room) :
    Player × Room × List (Nat × String) × JoinOutcome :=
  let p := { p with room := some rid, state := PState.WAITING }
  if r.players.length = MAX_PLAYERS then
    (p, r, [(p.pid, "3013 The room is full")], JoinOutcome.roomFull)
  else
    let r := if p.pid ∈ r.players then r
             else { r with players := r.players ++ [p.pid] }
    if r.players.length ≠ MAX_PLAYERS then
      (p, r, [(p.pid, "3011 Wait")], JoinOutcome.waitForPeer)
    else
      (p, r, [], JoinOutcome.startsRound)

/-- `winner_id = self.guesses[self.players[1]] == ans` (line 219): Python
compares the optional guess with the boolean coin, and `None == ans` is
`False`. -/
def winner_id (g1 : Option Bool) (ans : Bool) : Bool :=
  g1 == some ans

/-- `winner = self.players[winner_id]` (line 221): Python booleans index
lists as 0/1. -/
def roundWinner (p0 p1 : Nat) (g1 : Option Bool) (ans : Bool) : Nat :=
  if winner_id g1 ans then p1 else p0

/-- `loser = self.players[not winner_id]` (line 222). -/
def roundLoser (p0 p1 : Nat) (g1 : Option Bool) (ans : Bool) : Nat :=
  if winner_id g1 ans then p0 else p1

/-- The outcome computation of `GuessGameRoom.start` (lines 208-225), run
after every `got_guess` event fired: `p0`, `p1` are `players[0]`, `players[1]`,
`g0`, `g1` their entries in `guesses`, `abortSet` the `abort` event, and `ans`
the value drawn by `random.choice([True, False])`.  Returns the protocol
replies in send order, as (recipient id, text) pairs: nothing if aborted,
`3023` to both on equal guesses, else `3021` to the winner then `3022` to
the loser. -/
def resolveRound (p0 p1 : Nat) (g0 g1 : Option Bool) (abortSet : Bool) (ans : Bool) :
    List (Nat × String) :=
  if abortSet then []
  else if g0 == g1 then
    [(p0, "3023 The result is a tie"), (p1, "3023 The result is a tie")]
  else
    [(roundWinner p0 p1 g1 ans, "3021 You won this game"),
     (roundLoser p0 p1 g1 ans, "3022 You lost this game")]

/-- `GameRoom.reset` (lines 119-124): empty the member list, clear the
`begin`/`finish`/`abort` events, set `clean`.  Note that `self.guesses` is
not touched by `reset`. -/
def Room.reset (r : Room) : Room :=
  { r with players := [], begin := false, finish := false, abort := false,
           clean := true }

/-- `GameRoom.cleanup` (lines 126-132): for each current member, force
`state = LOBBY` and drop the room reference, then `reset` the room.  The
player store is modelled as a function from player id to session. -/
def Room.cleanup (r : Room) (ps : Nat → Player) : Room × (Nat → Player) :=
  let ps' := fun pid =>
    if pid ∈ r.players then { ps pid with state := PState.LOBBY, room := none }
    else ps pid
  (r.reset, ps')

/-- `handle_enter` room lookup (lines 302-305): `room_id = int(arg) - 1`,
then `rooms[room_id]` on the pool of `ROOM_COUNT` rooms, with Python
indexing.  Returns the zero-based index of the room object obtained, or
`none` when `IndexError` is raised. -/
def handle_enter_index (n : Int) : Option Nat :=
  pyGet (List.range ROOM_COUNT) (n - 1)

/-- How an `/enter n` command fares inside `handle_lobby`:
either `handle_enter` reaches `player.join(rooms[i])`, or the room lookup
raises `IndexError` (which lines 304-305 sit outside the `try` of
`handle_enter`, so it escapes into `handle_lobby`). -/
inductive EnterOutcome where
  | joins (roomIdx : Nat)
  | raisesIndexError
deriving DecidableEq, Repr

/-- The dispatch of `handle_enter` (lines 302-306) for a numeric argument. -/
def handle_enter_dispatch (n : Int) : EnterOutcome :=
  match handle_enter_index n with
  | some i => EnterOutcome.joins i
  | none => EnterOutcome.raisesIndexError

/-- The exception classes that can cross the body of `handle_lobby`'s
receive loop (lines 363-396). -/
inductive LobbyExc where
  | unicodeDecodeError
  | socketError
  | exitedException
  | indexError
deriving DecidableEq, Repr

/-- Which exceptions `handle_lobby`'s `except` clauses catch (lines 386-396):
`UnicodeDecodeError`, `socket.error` and `Player.ExitedException` only.
An `IndexError` escaping `handle_enter` is not among them, so it propagates
out of `handle_lobby` (and out of `handle_client`), killing the session's
thread with no reply sent. -/
def handle_lobby_catches : LobbyExc → Bool
  | LobbyExc.unicodeDecodeError => true
  | LobbyExc.socketError => true
  | LobbyExc.exitedException => true
  | LobbyExc.indexError => false

/-- `UserList.validate` (lines 83-84): `self.users.get(username) == password`.
The credential dict loaded from the user-info file is modelled as the
function `users`; `dict.get` returns `None` when absent, and in Python
`None == password` is `False` for a string password. -/
def UserList.validate (users : String → Option String) (username password : String) : Bool :=
  users username == some password

/-- One iteration of the `authenticate` loop (lines 276-290), applied to the
whitespace-split tokens of one received message: the reply sent back and the
new value of the `authenticated` local (`True` exactly when the message is a
well-formed `/login` with valid credentials). -/
def authStep (users : String → Option String) (toks : List String) : String × Bool :=
  match toks with
  | [cmd, username, password] =>
    if cmd = "/login" then
      if UserList.validate users username password then
        ("1001 Authentication successful", true)
      else
        ("1002 Authentication failed", false)
    else
      ("4002 Unrecognized message", false)
  | _ => ("4002 Unrecognized message", false)

/-- One event observed by the `authenticate` loop: either a message was
received and decoded into tokens, or a `socket.error` / `UnicodeDecodeError`
was raised during that iteration of the exchange. -/
inductive AuthEvent where
  | msg (toks : List String)
  | transErr
deriving DecidableEq, Repr

/-- The `try` body of `authenticate` (lines 274-290) over a trace of events:
the replies sent, and `Except.error a` when an exception escapes the `while`
loop — carrying the value of the `authenticated` local at the moment of the
raise, which is `False`, since `authenticated = True` is assigned only after
the `1001` send returns and nothing after that assignment can raise before
the loop exits.  An exhausted trace models a session still blocked in the
loop, reported as `ok false` (still unauthenticated). -/
def authTry (users : String → Option String) :
    List AuthEvent → List String × Except Bool Bool
  | [] => ([], Except.ok false)
  | AuthEvent.transErr :: _ => ([], Except.error false)
  | AuthEvent.msg toks :: rest =>
    if (authStep users toks).2 then
      ([(authStep users toks).1], Except.ok true)
    else
      ((authStep users toks).1 :: (authTry users rest).1, (authTry users rest).2)

/-- `authenticate` (lines 272-292): the `try`/`finally` whose `finally`
clause executes `return authenticated`, so an exception raised in the body
is swallowed and the current value of `authenticated` is returned instead. -/
def authenticate (users : String → Option String) (events : List AuthEvent) : Bool :=
  match (authTry users events).2 with
  | Except.ok b => b
  | Except.error b => b

/-! ## Shared helper lemmas -/

/-- `modifyIdx` with a function that fixes every element of the list is the
identity. -/
theorem modifyIdx_eq_self (l : List Room) (i : Nat) (f : Room → Room)
    (h : ∀ x ∈ l, f x = x) : modifyIdx l i f = l := by
  induction l generalizing i with
  | nil => rfl
  | cons r rs ih =>
    cases i with
    | zero => simp [modifyIdx, h r (by simp)]
    | succ n =>
      simp only [modifyIdx, List.cons.injEq, true_and]
      exact ih n (fun x hx => h x (by simp [hx]))

/-- The `authenticated` value carried by an exception escaping `authTry` is
always `false`: it is set to `true` only in the branch that immediately
returns normally. -/
theorem authTry_error_false (users : String → Option String) :
    ∀ evs b, (authTry users evs).2 = Except.error b → b = false := by
  intro evs
  induction evs with
  | nil => intro b h; simp [authTry] at h
  | cons e rest ih =>
    intro b h
    cases e with
    | transErr =>
      simp [authTry] at h
      exact h
    | msg toks =>
      by_cases hok : (authStep users toks).2 = true
      · simp [authTry, hok] at h
      · simp [authTry, hok] at h
        exact ih b h

/-! ## Claims -/

/-- C1: for a completed round with both guesses collected and the room not
aborted, equal guesses send the tie message `3023` to both members; differing
guesses draw a coin `ans` and send `3021` to the member whose guess equals
`ans`, `3022` to the other. -/
theorem c1_round_outcome (p0 p1 : Nat) (a b ans : Bool) :
    (a = b →
      resolveRound p0 p1 (some a) (some b) false ans =
        [(p0, "3023 The result is a tie"), (p1, "3023 The result is a tie")]) ∧
    (a ≠ b →
      resolveRound p0 p1 (some a) (some b) false ans =
        if a = ans then
          [(p0, "3021 You won this game"), (p1, "3022 You lost this game")]
        else
          [(p1, "3021 You won this game"), (p0, "3022 You lost this game")]) := by
  constructor
  · intro h
    subst h
    simp [resolveRound]
  · intro h
    have hb : b = !a := by cases a <;> cases b <;> simp_all
    subst hb
    cases a <;> cases ans <;>
      simp [resolveRound, roundWinner, roundLoser, winner_id]

theorem c1_round_outcome_witness :
    resolveRound 1 2 (some true) (some false) false true =
      if true = (true : Bool) then
        [(1, "3021 You won this game"), (2, "3022 You lost this game")]
      else
        [(2, "3021 You won this game"), (1, "3022 You lost this game")] :=
  (c1_round_outcome 1 2 true false true).2 (by decide)

/-- C8: when the two guesses differ, the winning member is the one whose
guess equals the coin, independent of join order: swapping the two members
(together with their guesses) selects the same winner and the same loser
for the same coin value. -/
theorem c8_winner_order_independent (p0 p1 : Nat) (a b ans : Bool) (h : a ≠ b) :
    roundWinner p0 p1 (some b) ans = roundWinner p1 p0 (some a) ans ∧
    roundLoser p0 p1 (some b) ans = roundLoser p1 p0 (some a) ans := by
  have hb : b = !a := by cases a <;> cases b <;> simp_all
  subst hb
  cases a <;> cases ans <;>
    simp [roundWinner, roundLoser, winner_id]

theorem c8_winner_order_independent_witness :
    roundWinner 1 2 (some false) true = roundWinner 2 1 (some true) true ∧
    roundLoser 1 2 (some false) true = roundLoser 2 1 (some true) true :=
  c8_winner_order_independent 1 2 true false true (by decide)

/-- C5: `Player.send` either succeeds leaving the session untouched, or —
on a transport error or a non-ASCII message — forces the session to
`DISCONNECTED` and signals the failure to the caller as an error value. -/
theorem c5_send_disconnects_on_failure (p : Player) (msg : String) (t : TransportResult) :
    (asciiEncodable msg = true → t = TransportResult.delivered →
      Player.send p msg t = Except.ok p) ∧
    (asciiEncodable msg = false ∨ t = TransportResult.sockErr →
      Player.send p msg t = Except.error { p with state := PState.DISCONNECTED }) := by
  constructor
  · intro henc ht
    subst ht
    simp [Player.send, henc]
  · intro hfail
    cases hfail with
    | inl henc => simp [Player.send, henc]
    | inr ht =>
      subst ht
      by_cases henc : asciiEncodable msg = true <;> simp [Player.send, henc]

theorem c5_send_disconnects_on_failure_witness :
    Player.send ⟨1, PState.LOBBY, none⟩ "3011 Wait" TransportResult.delivered =
      Except.ok ⟨1, PState.LOBBY, none⟩ ∧
    Player.send ⟨1, PState.LOBBY, none⟩ "3011 Wait" TransportResult.sockErr =
      Except.error ⟨1, PState.DISCONNECTED, none⟩ :=
  ⟨(c5_send_disconnects_on_failure ⟨1, PState.LOBBY, none⟩ "3011 Wait"
      TransportResult.delivered).1 (by decide) rfl,
   (c5_send_disconnects_on_failure ⟨1, PState.LOBBY, none⟩ "3011 Wait"
      TransportResult.sockErr).2 (Or.inr rfl)⟩

/-- C7: a `/login user pass` message with a credential pair present in the
directory is answered `1001` and ends the login phase; any other pair is
answered `1002` and the loop goes on processing subsequent events, still
unauthenticated. -/
theorem c7_login (users : String → Option String) (u pw : String) (rest : List AuthEvent) :
    (users u = some pw →
      authTry users (AuthEvent.msg ["/login", u, pw] :: rest) =
        (["1001 Authentication successful"], Except.ok true)) ∧
    (users u ≠ some pw →
      authTry users (AuthEvent.msg ["/login", u, pw] :: rest) =
        ("1002 Authentication failed" :: (authTry users rest).1,
         (authTry users rest).2)) := by
  constructor
  · intro h
    simp [authTry, authStep, UserList.validate, h]
  · intro h
    have hv : (users u == some pw) = false := by
      simpa using h
    simp [authTry, authStep, UserList.validate, hv]

theorem c7_login_witness :
    authTry (fun s => if s = "alice" then some "pw" else none)
        [AuthEvent.msg ["/login", "alice", "pw"]] =
      (["1001 Authentication successful"], Except.ok true) ∧
    authTry (fun s => if s = "alice" then some "pw" else none)
        [AuthEvent.msg ["/login", "alice", "wrong"]] =
      ("1002 Authentication failed" ::
        (authTry (fun s => if s = "alice" then some "pw" else none) []).1,
       (authTry (fun s => if s = "alice" then some "pw" else none) []).2) :=
  ⟨(c7_login (fun s => if s = "alice" then some "pw" else none) "alice" "pw" []).1
      (by simp),
   (c7_login (fun s => if s = "alice" then some "pw" else none) "alice" "wrong" []).2
      (by simp)⟩

/-- C10: `authenticate` never propagates an exception: whenever the loop body
raises (an `Except.error` escapes `authTry`), the `finally`-clause `return`
swallows it and `authenticate` returns `False`. -/
theorem c10_authenticate_swallows (users : String → Option String)
    (evs : List AuthEvent) (h : ∃ b, (authTry users evs).2 = Except.error b) :
    authenticate users evs = false := by
  obtain ⟨b, hb⟩ := h
  have hfalse := authTry_error_false users evs b hb
  simp [authenticate, hb, hfalse]

theorem c10_authenticate_swallows_witness :
    (∃ b, (authTry (fun _ => none) [AuthEvent.transErr]).2 = Except.error b) ∧
    authenticate (fun _ => none) [AuthEvent.transErr] = false :=
  ⟨⟨false, rfl⟩, c10_authenticate_swallows (fun _ => none) [AuthEvent.transErr] ⟨false, rfl⟩⟩

/-- C9: `/enter 0` computes zero-based index `-1`, which Python's negative
list indexing resolves to the last room of the 8-room pool (zero-based
index 7, i.e. room 8), and the handler proceeds to join it instead of
rejecting 0 as out of range. -/
theorem c9_enter_zero_joins_last_room :
    handle_enter_dispatch 0 = EnterOutcome.joins 7 ∧ 7 = ROOM_COUNT - 1 := by
  decide

/-- C3 (code evaluated at the failing input): `/enter 9` makes `handle_enter`
index `rooms[8]` on the 8-room pool, raising `IndexError`, and `handle_lobby`
does not catch `IndexError` — so no `4002` reply is produced and the session's
thread dies, contradicting the claimed behavior. -/
theorem c3_enter_out_of_range_crashes :
    handle_enter_dispatch 9 = EnterOutcome.raisesIndexError ∧
    handle_lobby_catches LobbyExc.indexError = false := by
  decide

/-- C2 counterexample: a session (id 3, in the lobby) that requests to join a
full room does NOT remain in the lobby state with no room reference —
`Player.join` sets `state = WAITING` and the room reference before the
capacity check, and the full-room branch never restores them. -/
theorem c2_counterexample :
    ¬ (((Player.join ⟨3, PState.LOBBY, none⟩ 0
          ⟨[1, 2], false, false, false, true, []⟩).1).state = PState.LOBBY ∧
       ((Player.join ⟨3, PState.LOBBY, none⟩ 0
          ⟨[1, 2], false, false, false, true, []⟩).1).room = none) := by
  decide

/-- C2 (amended): joining a full room immediately replies
`3013 The room is full` and leaves the room (membership and flags) entirely
unchanged, but the requesting session's `state` is left at `WAITING` with its
`room` reference pointing at the full room (the session nonetheless continues
in the lobby command loop, as `add_player` returns `True`). -/
theorem c2_room_full (p : Player) (rid : Nat) (r : Room)
    (h : r.players.length = MAX_PLAYERS) :
    Player.join p rid r =
      ({ p with room := some rid, state := PState.WAITING }, r,
       [(p.pid, "3013 The room is full")], JoinOutcome.roomFull) := by
  simp [Player.join, h]

theorem c2_room_full_witness :
    Player.join ⟨3, PState.LOBBY, none⟩ 0 ⟨[1, 2], false, false, false, true, []⟩ =
      (⟨3, PState.WAITING, some 0⟩, ⟨[1, 2], false, false, false, true, []⟩,
       [(3, "3013 The room is full")], JoinOutcome.roomFull) :=
  c2_room_full ⟨3, PState.LOBBY, none⟩ 0 ⟨[1, 2], false, false, false, true, []⟩ (by decide)

/-- C4 counterexample: guess values from the previous round DO remain
observable in the room's round state after `cleanup` — `reset` clears the
member list and the four flags but never touches `self.guesses`. -/
theorem c4_counterexample :
    (1, some true) ∈
      (Room.cleanup ⟨[1, 2], true, true, false, false, [(1, some true), (2, some false)]⟩
        (fun n => ⟨n, PState.INGAME, some 0⟩)).1.guesses := by
  decide

/-- C4 (amended): after `cleanup` the member list is empty, the
`begin`/`finish`/`abort` flags are cleared, `clean` is set, and every former
member's state is `LOBBY` with no room reference — but the `guesses` mapping
keeps the previous round's values unchanged (they are only overwritten when
the next round starts). -/
theorem c4_cleanup (r : Room) (ps : Nat → Player) :
    (Room.cleanup r ps).1.players = [] ∧
    (Room.cleanup r ps).1.begin = false ∧
    (Room.cleanup r ps).1.finish = false ∧
    (Room.cleanup r ps).1.abort = false ∧
    (Room.cleanup r ps).1.clean = true ∧
    (Room.cleanup r ps).1.guesses = r.guesses ∧
    (∀ pid ∈ r.players, ((Room.cleanup r ps).2 pid).state = PState.LOBBY ∧
      ((Room.cleanup r ps).2 pid).room = none) := by
  refine ⟨rfl, rfl, rfl, rfl, rfl, rfl, ?_⟩
  intro pid hmem
  simp [Room.cleanup, hmem]

theorem c4_cleanup_witness :
    ((Room.cleanup ⟨[1, 2], true, true, false, false, [(1, some true), (2, some false)]⟩
        (fun n => ⟨n, PState.INGAME, some 0⟩)).2 1).state = PState.LOBBY ∧
    ((Room.cleanup ⟨[1, 2], true, true, false, false, [(1, some true), (2, some false)]⟩
        (fun n => ⟨n, PState.INGAME, some 0⟩)).2 1).room = none :=
  (c4_cleanup ⟨[1, 2], true, true, false, false, [(1, some true), (2, some false)]⟩
      (fun n => ⟨n, PState.INGAME, some 0⟩)).2.2.2.2.2.2 1 (by decide)

/-- C6 counterexample: `leave` on a session that is not a member of any room
is not free of observable effects on the session's state — it unconditionally
forces `state = LOBBY`, so a session left at `WAITING` with a stale room
reference (as after a rejected join of a full room) is mutated. -/
theorem c6_counterexample :
    ((Player.leave ⟨5, PState.WAITING, some 0⟩
        [⟨[1, 2], false, false, false, true, []⟩]).1).state ≠ PState.WAITING := by
  decide

/-- C6 (amended): `leave` on a session that is not a member of any room never
raises, leaves every room unchanged, and only normalizes the session itself
(`state = LOBBY`, room reference cleared); in particular a second consecutive
`leave` is a strict no-op. -/
theorem c6_leave_nonmember (p : Player) (rooms : List Room)
    (h : ∀ r ∈ rooms, p.pid ∉ r.players) :
    (Player.leave p rooms).2 = rooms ∧
    ((Player.leave p rooms).1).state = PState.LOBBY ∧
    ((Player.leave p rooms).1).room = none ∧
    Player.leave (Player.leave p rooms).1 (Player.leave p rooms).2 =
      ((Player.leave p rooms).1, (Player.leave p rooms).2) := by
  have hrooms : (Player.leave p rooms).2 = rooms := by
    cases hr : p.room with
    | none => simp [Player.leave, hr]
    | some rid =>
      simp only [Player.leave, hr]
      exact modifyIdx_eq_self rooms rid _
        (fun x hx => by simp [Room.remove_player, h x hx])
  refine ⟨hrooms, ?_, ?_, ?_⟩
  · cases hr : p.room <;> simp [Player.leave, hr]
  · cases hr : p.room <;> simp [Player.leave, hr]
  · cases hr : p.room <;> simp [Player.leave, hr]

theorem c6_leave_nonmember_witness :
    (Player.leave ⟨5, PState.WAITING, some 0⟩
        [⟨[1, 2], false, false, false, true, []⟩]).2 =
      [⟨[1, 2], false, false, false, true, []⟩] ∧
    ((Player.leave ⟨5, PState.WAITING, some 0⟩
        [⟨[1, 2], false, false, false, true, []⟩]).1).state = PState.LOBBY ∧
    ((Player.leave ⟨5, PState.WAITING, some 0⟩
        [⟨[1, 2], false, false, false, true, []⟩]).1).room = none ∧
    Player.leave
        (Player.leave ⟨5, PState.WAITING, some 0⟩
          [⟨[1, 2], false, false, false, true, []⟩]).1
        (Player.leave ⟨5, PState.WAITING, some 0⟩
          [⟨[1, 2], false, false, false, true, []⟩]).2 =
      ((Player.leave ⟨5, PState.WAITING, some 0⟩
          [⟨[1, 2], false, false, false, true, []⟩]).1,
       (Player.leave ⟨5, PState.WAITING, some 0⟩
          [⟨[1, 2], false, false, false, true, []⟩]).2) :=
  c6_leave_nonmember ⟨5, PState.WAITING, some 0⟩
    [⟨[1, 2], false, false, false, true, []⟩] (by decide)

end GameServer
